import Mathlib

/-!
Verification of the Robinhood crypto trading client (src/robinhood.ts).

The client has three layers, embedded here as executable Lean definitions:
  * the request signer (`signRequest`): decodes the base64 private key,
    builds the canonical message, signs it with the (external) detached
    signature primitive and base64-encodes the signature;
  * the request dispatcher (`makeRequest`): composes headers from the
    signer output, issues the HTTP call, validates the status, returns the
    body or an error;
  * the operation builders (`getBestBidAskRequest`, `getOrdersRequest`,
    `placeOrderRequest`, ...): build path, query string and JSON body and
    delegate to the dispatcher.

External effects are made explicit parameters: the wall clock is a
millisecond count `nowMs`, the detached-signature primitive of tweetnacl is
an abstract function argument `sg` (it is deterministic in the library, so a
function is a faithful model), the uuid generator's output is a string
argument, and the network is a function from the built HTTP request to a
`FetchOutcome`.  The dispatcher additionally returns the list of HTTP
requests it actually issued, so that claims about "no network activity"
are statable.
-/

/-- Configuration record, mirroring the TypeScript RobinhoodConfig interface. -/
structure RobinhoodConfig where
  privateKeyBase64 : String
  publicKeyBase64 : String
  apiKey : String
deriving Repr, DecidableEq

/-! ### Node base64 decoding (Buffer.from(s, "base64"))

Node's base64 decoder is lenient: it never throws, it skips characters
outside the base64 alphabet, it stops decoding entirely at the first '='
(the padding character terminates the input, so nothing after it is
decoded), and it decodes leftover groups of 2 or 3 digits into 1 or 2
bytes.  Bytes are modelled as Nat (each value produced is < 256 by
construction). -/

/-- The base64 alphabet, in index order. -/
def b64Alphabet : List Char :=
  "ABCDEFGHIJKLMNOPQRSTUVWXYZabcdefghijklmnopqrstuvwxyz0123456789+/".data

/-- Value of a base64 digit character, none for characters outside the alphabet. -/
def b64Val (c : Char) : Option Nat :=
  b64Alphabet.findIdx? (· = c)

/-- Decode a list of base64 digit values (each < 64) into bytes, in groups of
four digits to three bytes; a leftover group of two or three digits yields
one or two bytes, a single leftover digit is dropped. -/
def b64DecodeQuads : List Nat → List Nat
  | a :: b :: c :: d :: rest =>
      (a * 4 + b / 16) :: ((b % 16) * 16 + c / 4) :: ((c % 4) * 64 + d) ::
        b64DecodeQuads rest
  | [a, b] => [a * 4 + b / 16]
  | [a, b, c] => [a * 4 + b / 16, (b % 16) * 16 + c / 4]
  | _ => []

/-- Node's lenient base64 decode: truncate at the first '=' (padding stops
the decoder), drop every other non-alphabet character, then decode the
remaining digits.  This models Buffer.from(s, "base64"). -/
def nodeBase64Decode (s : String) : List Nat :=
  b64DecodeQuads ((s.data.takeWhile (· ≠ '=')).filterMap b64Val)

/-- Strict RFC 4648 base64 validity: length a multiple of four, at most two
trailing padding characters, and every other character from the alphabet. -/
def isValidBase64 (s : String) : Bool :=
  let cs := s.data
  let p := (cs.reverse.takeWhile (· = '=')).length
  cs.length % 4 == 0 && p ≤ 2 &&
    (cs.take (cs.length - p)).all (fun c => (b64Val c).isSome)

/-- Base64 digit character for a value < 64. -/
def b64Char (n : Nat) : Char := b64Alphabet.getD n 'A'

/-- Encode bytes as base64 characters, three bytes to four digits, with
standard '=' padding for a leftover group of one or two bytes. -/
def b64EncodeChunks : List Nat → List Char
  | a :: b :: c :: rest =>
      b64Char (a / 4) :: b64Char (a % 4 * 16 + b / 16) ::
        b64Char (b % 16 * 4 + c / 64) :: b64Char (c % 64) ::
        b64EncodeChunks rest
  | [a, b] => [b64Char (a / 4), b64Char (a % 4 * 16 + b / 16), b64Char (b % 16 * 4), '=']
  | [a] => [b64Char (a / 4), b64Char (a % 4 * 16), '=', '=']
  | [] => []

/-- Base64 encoding of a byte list, modelling Buffer.toString("base64"). -/
def base64Encode (bytes : List Nat) : String :=
  String.mk (b64EncodeChunks bytes)

/-- UTF-8 encoding of one code point. -/
def utf8EncodeCodePoint (n : Nat) : List Nat :=
  if n < 0x80 then [n]
  else if n < 0x800 then [0xC0 + n / 64, 0x80 + n % 64]
  else if n < 0x10000 then
    [0xE0 + n / 4096, 0x80 + n / 64 % 64, 0x80 + n % 64]
  else
    [0xF0 + n / 262144, 0x80 + n / 4096 % 64, 0x80 + n / 64 % 64, 0x80 + n % 64]

/-- UTF-8 bytes of a string, modelling new Uint8Array(Buffer.from(message)). -/
def utf8Bytes (s : String) : List Nat :=
  s.data.flatMap (fun c => utf8EncodeCodePoint c.toNat)

/-! ### Request signer -/

/-- The detached-signature primitive of tweetnacl (nacl.sign.detached),
abstract: secret-key bytes and message bytes to signature bytes.  The
library function is deterministic (Ed25519 uses no randomness), so a plain
function is a faithful model. -/
def SignPrim : Type := List Nat → List Nat → List Nat

/-- Expected secret-key length of the signature scheme
(tweetnacl crypto_sign_SECRETKEYBYTES). -/
def SECRETKEYBYTES : Nat := 64

/-- The canonical message signed by signRequest: the exact concatenation
apiKey + timestamp + path + method + body, no separators (line 85 of
robinhood.ts). -/
def canonicalMessage (apiKey timestamp path method body : String) : String :=
  apiKey ++ timestamp ++ path ++ method ++ body

/-- Output of the signer: the timestamp it generated and the base64
signature. -/
structure SignResult where
  timestamp : String
  signatureBase64 : String
deriving Repr, DecidableEq

/-- RobinhoodCrypto.signRequest (lines 72-100).  The wall clock is the
explicit parameter nowMs (milliseconds, as Date.now()); the timestamp is
floor(nowMs / 1000) rendered in decimal.  The private key is decoded with
Node's lenient base64 decoder; nacl.sign.keyPair.fromSecretKey throws
"bad secret key size" unless the decoded key has exactly 64 bytes, and this
is the only failure point (base64 decoding itself never throws).  The
public key is decoded but not used in the signature. -/
def signRequest (sg : SignPrim) (cfg : RobinhoodConfig) (nowMs : Nat)
    (path method body : String) : Except String SignResult :=
  let timestamp := toString (nowMs / 1000)
  let privateKeyBytes := nodeBase64Decode cfg.privateKeyBase64
  let _publicKeyBytes := nodeBase64Decode cfg.publicKeyBase64
  if privateKeyBytes.length ≠ SECRETKEYBYTES then
    .error "bad secret key size"
  else
    let message := canonicalMessage cfg.apiKey timestamp path method body
    let signature := sg privateKeyBytes (utf8Bytes message)
    .ok { timestamp := timestamp, signatureBase64 := base64Encode signature }

/-! ### Request dispatcher -/

/-- An HTTP request as handed to fetch: url, method, headers and the
optional body. -/
structure HttpRequest where
  url : String
  method : String
  headers : List (String × String)
  body : Option String
deriving Repr, DecidableEq

/-- Outcome of one fetch call: either a response with a status and a body,
or a transport failure (DNS, connection refused, timeout) carrying the
thrown error's message. -/
inductive FetchOutcome where
  | success (status : Nat) (body : String)
  | failure (message : String)
deriving Repr, DecidableEq

/-- The error kinds the dispatcher can surface, distinguished by the site
that raises them: the signer's throw, the explicit throw on a non-ok
status (which carries the status code), and the rethrown transport error. -/
inductive RequestError where
  | signingError (message : String)
  | httpError (status : Nat)
  | transportError (message : String)
deriving Repr, DecidableEq

/-- The fixed base endpoint (field baseUrl of RobinhoodCrypto). -/
def baseUrl : String := "https://trading.robinhood.com"

/-- Compose the fetch request from the signer output (lines 109-123):
fixed content type, api key, timestamp and signature headers; the body is
attached only when the caller-supplied body string is truthy, i.e.,
non-empty. -/
def buildRequest (cfg : RobinhoodConfig) (sr : SignResult)
    (path method body : String) : HttpRequest :=
  { url := baseUrl ++ path
    method := method
    headers :=
      [("Content-Type", "application/json"), ("x-api-key", cfg.apiKey),
       ("x-timestamp", sr.timestamp), ("x-signature", sr.signatureBase64)]
    body := if body = "" then none else some body }

/-- The fetch Response.ok predicate: status in the inclusive range 200-299. -/
def responseOk (status : Nat) : Bool :=
  200 ≤ status && status ≤ 299

/-- RobinhoodCrypto.makeRequest (lines 102-137).  Signs, builds the request,
issues it through the network function, throws an HTTP error on a non-ok
status and rethrows transport failures.  The second component of the result
is the list of HTTP requests actually issued: empty when signing failed,
since the signer is awaited before fetch is reached. -/
def makeRequest (sg : SignPrim) (cfg : RobinhoodConfig) (nowMs : Nat)
    (path method body : String) (net : HttpRequest → FetchOutcome) :
    Except RequestError String × List HttpRequest :=
  match signRequest sg cfg nowMs path method body with
  | .error e => (.error (.signingError e), [])
  | .ok sr =>
    let req := buildRequest cfg sr path method body
    match net req with
    | .failure m => (.error (.transportError m), [req])
    | .success status rbody =>
      if responseOk status then (.ok rbody, [req])
      else (.error (.httpError status), [req])

/-! ### JSON values and JSON.stringify

A minimal model of the JSON values the client serializes: strings, numbers
(carried as their JSON numeral text, since only serialization matters) and
objects as insertion-ordered field lists, which is how V8 enumerates
string-keyed properties. -/

/-- JSON values: strings, numbers (as their JSON numeral text) and
insertion-ordered objects. -/
inductive Json where
  | str : String → Json
  | num : String → Json
  | obj : List (String × Json) → Json

/-- Hexadecimal digit character for a value < 16 (lowercase, as V8 prints). -/
def hexDigit (n : Nat) : String :=
  String.singleton ("0123456789abcdef".data.getD n '0')

/-- JSON string escaping of one character, as JSON.stringify performs it:
quote, backslash, the short control escapes and \u00xx for the remaining
control characters. -/
def jsonEscapeChar (c : Char) : String :=
  if c = '"' then "\\\""
  else if c = '\\' then "\\\\"
  else if c = '\x08' then "\\b"
  else if c = '\x0c' then "\\f"
  else if c = '\n' then "\\n"
  else if c = '\r' then "\\r"
  else if c = '\t' then "\\t"
  else if c.toNat < 32 then "\\u00" ++ hexDigit (c.toNat / 16) ++ hexDigit (c.toNat % 16)
  else String.singleton c

/-- JSON string escaping, character by character. -/
def jsonEscape (s : String) : String :=
  String.join (s.data.map jsonEscapeChar)

mutual

/-- JSON.stringify on a value. -/
def Json.stringify : Json → String
  | .str s => "\"" ++ jsonEscape s ++ "\""
  | .num n => n
  | .obj fs => "\x7b" ++ Json.stringifyFields fs ++ "\x7d"

/-- JSON.stringify on an object's field list, comma separated. -/
def Json.stringifyFields : List (String × Json) → String
  | [] => ""
  | [(k, v)] => "\"" ++ jsonEscape k ++ "\":" ++ Json.stringify v
  | (k, v) :: rest =>
      "\"" ++ jsonEscape k ++ "\":" ++ Json.stringify v ++ "," ++
        Json.stringifyFields rest

end

/-- JavaScript object spread-and-add: the value of \x7b...fs, k: v\x7d.  When k is
already a key of fs the existing entry is overwritten in place; otherwise
the new field is appended at the end. -/
def setField (fs : List (String × Json)) (k : String) (v : Json) :
    List (String × Json) :=
  if fs.any (fun kv => kv.1 = k) then
    fs.map (fun kv => if kv.1 = k then (k, v) else kv)
  else
    fs ++ [(k, v)]

/-! ### Operation builders

Each builder produces the (path, method, body) triple it hands to the
dispatcher, and a wrapper composes it with makeRequest.  JavaScript
truthiness appears as: an optional number parameter is used only when
present and nonzero, an optional string only when present and non-empty. -/

/-- RobinhoodCrypto.getBestBidAsk (lines 140-146): one symbol= parameter per
list element, in order, joined by ampersands, after a question mark that is
always present. -/
def getBestBidAskRequest (symbols : List String) : String × String × String :=
  let queryString := String.intercalate "&" (symbols.map (fun s => "symbol=" ++ s))
  ("/api/v1/crypto/marketdata/best_bid_ask/?" ++ queryString, "GET", "")

/-- RobinhoodCrypto.getEstimatedPrice (lines 148-160); quantities are carried
as their JavaScript decimal renderings. -/
def getEstimatedPriceRequest (symbol side : String) (quantities : List String) :
    String × String × String :=
  let queryString :=
    "symbol=" ++ symbol ++ "&side=" ++ side ++ "&quantity=" ++
      String.intercalate "," quantities
  ("/api/v1/crypto/marketdata/estimated_price/?" ++ queryString, "GET", "")

/-- RobinhoodCrypto.getTradingPairs (lines 163-175): symbol parameters always
present after the question mark; limit and cursor appended with an ampersand
only when truthy. -/
def getTradingPairsRequest (symbols : List String) (limit : Option Nat)
    (cursor : Option String) : String × String × String :=
  let queryString := String.intercalate "&" (symbols.map (fun s => "symbol=" ++ s))
  let queryString :=
    match limit with
    | some l => if l ≠ 0 then queryString ++ "&limit=" ++ toString l else queryString
    | none => queryString
  let queryString :=
    match cursor with
    | some c => if c ≠ "" then queryString ++ "&cursor=" ++ c else queryString
    | none => queryString
  ("/api/v1/crypto/trading/trading_pairs/?" ++ queryString, "GET", "")

/-- RobinhoodCrypto.placeOrder (lines 178-188): spread the caller's order
object, add the freshly generated client_order_id, and POST the JSON
serialization to the orders-creation path.  The uuid generator's output is
the explicit parameter clientOrderId. -/
def placeOrderRequest (order : List (String × Json)) (clientOrderId : String) :
    String × String × String :=
  let payload := setField order "client_order_id" (Json.str clientOrderId)
  ("/api/v1/crypto/trading/orders/", "POST", Json.stringify (Json.obj payload))

/-- RobinhoodCrypto.getOrder (lines 190-192). -/
def getOrderRequest (orderId : String) : String × String × String :=
  ("/api/v1/crypto/trading/orders/" ++ orderId ++ "/", "GET", "")

/-- RobinhoodCrypto.cancelOrder (lines 194-199). -/
def cancelOrderRequest (orderId : String) : String × String × String :=
  ("/api/v1/crypto/trading/orders/" ++ orderId ++ "/cancel/", "POST", "")

/-- RobinhoodCrypto.getOrders (lines 201-219):  Object.entries of the filter
object (insertion-ordered key/value pairs, every value a string) keeps only
truthy, i.e. non-empty, values; truthy limit and cursor are appended; the
question mark appears only when at least one parameter was produced. -/
def getOrdersRequest (filters : Option (List (String × String)))
    (limit : Option Nat) (cursor : Option String) : String × String × String :=
  let queryParams : List String :=
    match filters with
    | none => []
    | some fs => fs.filterMap (fun kv =>
        if kv.2 ≠ "" then some (kv.1 ++ "=" ++ kv.2) else none)
  let queryParams := queryParams ++
    (match limit with
     | some l => if l ≠ 0 then ["limit=" ++ toString l] else []
     | none => [])
  let queryParams := queryParams ++
    (match cursor with
     | some c => if c ≠ "" then ["cursor=" ++ c] else []
     | none => [])
  let queryString :=
    if queryParams.length > 0 then "?" ++ String.intercalate "&" queryParams else ""
  ("/api/v1/crypto/trading/orders/" ++ queryString, "GET", "")

/-- RobinhoodCrypto.getAccount (lines 222-224). -/
def getAccountRequest : String × String × String :=
  ("/api/v1/crypto/trading/accounts/", "GET", "")

/-- RobinhoodCrypto.getHoldings (lines 227-243): one asset_code= parameter
per element when the list is present (no truthiness filter on elements);
truthy limit and cursor appended; question mark only when parameters exist. -/
def getHoldingsRequest (assetCodes : Option (List String)) (limit : Option Nat)
    (cursor : Option String) : String × String × String :=
  let queryParams : List String :=
    match assetCodes with
    | none => []
    | some cs => cs.map (fun c => "asset_code=" ++ c)
  let queryParams := queryParams ++
    (match limit with
     | some l => if l ≠ 0 then ["limit=" ++ toString l] else []
     | none => [])
  let queryParams := queryParams ++
    (match cursor with
     | some c => if c ≠ "" then ["cursor=" ++ c] else []
     | none => [])
  let queryString :=
    if queryParams.length > 0 then "?" ++ String.intercalate "&" queryParams else ""
  ("/api/v1/crypto/trading/holdings/" ++ queryString, "GET", "")

/-- Dispatch a built (path, method, body) triple through makeRequest. -/
def dispatch (sg : SignPrim) (cfg : RobinhoodConfig) (nowMs : Nat)
    (req : String × String × String) (net : HttpRequest → FetchOutcome) :
    Except RequestError String × List HttpRequest :=
  makeRequest sg cfg nowMs req.1 req.2.1 req.2.2 net

/-- The public getBestBidAsk operation. -/
def getBestBidAsk (sg : SignPrim) (cfg : RobinhoodConfig) (nowMs : Nat)
    (symbols : List String) (net : HttpRequest → FetchOutcome) :
    Except RequestError String × List HttpRequest :=
  dispatch sg cfg nowMs (getBestBidAskRequest symbols) net

/-- The public placeOrder operation; clientOrderId is the uuid generator's
output for this call. -/
def placeOrder (sg : SignPrim) (cfg : RobinhoodConfig) (nowMs : Nat)
    (order : List (String × Json)) (clientOrderId : String)
    (net : HttpRequest → FetchOutcome) :
    Except RequestError String × List HttpRequest :=
  dispatch sg cfg nowMs (placeOrderRequest order clientOrderId) net

/-- The public getOrders operation. -/
def getOrders (sg : SignPrim) (cfg : RobinhoodConfig) (nowMs : Nat)
    (filters : Option (List (String × String))) (limit : Option Nat)
    (cursor : Option String) (net : HttpRequest → FetchOutcome) :
    Except RequestError String × List HttpRequest :=
  dispatch sg cfg nowMs (getOrdersRequest filters limit cursor) net

/-- The public getHoldings operation. -/
def getHoldings (sg : SignPrim) (cfg : RobinhoodConfig) (nowMs : Nat)
    (assetCodes : Option (List String)) (limit : Option Nat)
    (cursor : Option String) (net : HttpRequest → FetchOutcome) :
    Except RequestError String × List HttpRequest :=
  dispatch sg cfg nowMs (getHoldingsRequest assetCodes limit cursor) net

/-- The public getTradingPairs operation. -/
def getTradingPairs (sg : SignPrim) (cfg : RobinhoodConfig) (nowMs : Nat)
    (symbols : List String) (limit : Option Nat) (cursor : Option String)
    (net : HttpRequest → FetchOutcome) :
    Except RequestError String × List HttpRequest :=
  dispatch sg cfg nowMs (getTradingPairsRequest symbols limit cursor) net

/-! ### Helper lemmas -/

/-- String append is left-cancellative. -/
theorem str_cancel_left {s t u : String} (h : s ++ t = s ++ u) : t = u := by
  apply String.ext
  have hd := congrArg String.data h
  simp only [String.data_append] at hd
  exact List.append_cancel_left hd

/-- String append is right-cancellative. -/
theorem str_cancel_right {s t u : String} (h : s ++ u = t ++ u) : s = t := by
  apply String.ext
  have hd := congrArg String.data h
  simp only [String.data_append] at hd
  exact List.append_cancel_right hd

/-- The requests makeRequest issues: none when the signer threw, exactly the
built request otherwise, whatever the network outcome. -/
theorem makeRequest_trace (sg : SignPrim) (cfg : RobinhoodConfig) (nowMs : Nat)
    (path method body : String) (net : HttpRequest → FetchOutcome) :
    (makeRequest sg cfg nowMs path method body net).2 =
      (match signRequest sg cfg nowMs path method body with
       | .error _ => []
       | .ok sr => [buildRequest cfg sr path method body]) := by
  unfold makeRequest
  split
  · rfl
  · dsimp only
    split
    · rfl
    · split <;> rfl

/-- C1: the canonical message signed by signRequest is the exact ordered
concatenation apiKey + timestamp + path + method + body with no separators,
and with the other four fields held fixed, changing any single field changes
the canonical message (stated contrapositively: equal messages force the
varied field to be equal). -/
theorem canonicalMessage_spec (a t p m b : String) :
    canonicalMessage a t p m b = a ++ t ++ p ++ m ++ b ∧
    (∀ a', canonicalMessage a' t p m b = canonicalMessage a t p m b → a' = a) ∧
    (∀ t', canonicalMessage a t' p m b = canonicalMessage a t p m b → t' = t) ∧
    (∀ p', canonicalMessage a t p' m b = canonicalMessage a t p m b → p' = p) ∧
    (∀ m', canonicalMessage a t p m' b = canonicalMessage a t p m b → m' = m) ∧
    (∀ b', canonicalMessage a t p m b' = canonicalMessage a t p m b → b' = b) := by
  refine ⟨rfl, ?_, ?_, ?_, ?_, ?_⟩
  · intro a' h
    unfold canonicalMessage at h
    exact str_cancel_right (str_cancel_right (str_cancel_right (str_cancel_right h)))
  · intro t' h
    unfold canonicalMessage at h
    exact str_cancel_left (str_cancel_right (str_cancel_right (str_cancel_right h)))
  · intro p' h
    unfold canonicalMessage at h
    exact str_cancel_left (str_cancel_right (str_cancel_right h))
  · intro m' h
    unfold canonicalMessage at h
    exact str_cancel_left (str_cancel_right h)
  · intro b' h
    unfold canonicalMessage at h
    exact str_cancel_left h

/-- Witness for C1: concrete evaluation of the canonical message, and a
concrete changed apiKey yields a different canonical message. -/
theorem canonicalMessage_spec_witness :
    canonicalMessage "key" "1700000000" "/api/v1/crypto/trading/accounts/" "GET" "" =
      "key1700000000/api/v1/crypto/trading/accounts/GET" ∧
    canonicalMessage "keyX" "1700000000" "/api/v1/crypto/trading/accounts/" "GET" "" ≠
      canonicalMessage "key" "1700000000" "/api/v1/crypto/trading/accounts/" "GET" "" := by
  have h := canonicalMessage_spec "key" "1700000000" "/api/v1/crypto/trading/accounts/" "GET" ""
  refine ⟨h.1.trans (by decide), fun hc => ?_⟩
  exact absurd (h.2.1 "keyX" hc) (by decide)

/-- C4: signing is deterministic.  The signer is a pure function of the
signing primitive, the private key, the api key, the clock reading and the
(path, method, body) triple: in particular two configurations agreeing on
private key and api key (the public key may differ, it is unused) produce
identical results, so two runs at a fixed tuple return the identical base64
signature, and across calls the output varies only through the wall-clock
timestamp parameter. -/
theorem signRequest_deterministic (sg : SignPrim) (cfg cfg' : RobinhoodConfig)
    (nowMs : Nat) (path method body : String)
    (hk : cfg.privateKeyBase64 = cfg'.privateKeyBase64)
    (ha : cfg.apiKey = cfg'.apiKey) :
    signRequest sg cfg nowMs path method body =
      signRequest sg cfg' nowMs path method body := by
  cases cfg with
  | mk pk pub api =>
    cases cfg' with
    | mk pk' pub' api' =>
      simp only at hk ha
      subst hk
      subst ha
      rfl

/-- Witness for C4: two concrete configurations differing only in the unused
public key sign identically. -/
theorem signRequest_deterministic_witness :
    signRequest (fun _ _ => []) ⟨"AAAA", "pubOne", "key"⟩ 5000 "/p" "GET" "" =
      signRequest (fun _ _ => []) ⟨"AAAA", "pubTwo", "key"⟩ 5000 "/p" "GET" "" :=
  signRequest_deterministic (fun _ _ => []) _ _ 5000 "/p" "GET" "" rfl rfl

/-! ### Concrete fixtures for witnesses -/

/-- A concrete signing primitive producing the empty signature. -/
def zeroSig : SignPrim := fun _ _ => []

/-- Eighty-six base64 digits decode to exactly 64 bytes, the expected secret
key length. -/
def goodKeyB64 : String := String.mk (List.replicate 86 'A')

/-- A configuration whose private key decodes to 64 bytes. -/
def testCfg : RobinhoodConfig := ⟨goodKeyB64, "", "api"⟩

/-- C3: when the signer succeeded (so a request is dispatched), a non-success
HTTP status surfaces as the HTTP error carrying that status, never as a
returned result; a transport failure surfaces as the rethrown transport
error, a kind distinct from the HTTP-status error. -/
theorem makeRequest_error_surfacing (sg : SignPrim) (cfg : RobinhoodConfig)
    (nowMs : Nat) (path method body : String) (net : HttpRequest → FetchOutcome)
    (sr : SignResult)
    (hs : signRequest sg cfg nowMs path method body = Except.ok sr) :
    (∀ status rbody,
        net (buildRequest cfg sr path method body) = FetchOutcome.success status rbody →
        responseOk status = false →
        makeRequest sg cfg nowMs path method body net =
          (Except.error (RequestError.httpError status),
           [buildRequest cfg sr path method body])) ∧
    (∀ msg,
        net (buildRequest cfg sr path method body) = FetchOutcome.failure msg →
        makeRequest sg cfg nowMs path method body net =
          (Except.error (RequestError.transportError msg),
           [buildRequest cfg sr path method body])) ∧
    (∀ status msg, RequestError.transportError msg ≠ RequestError.httpError status) := by
  refine ⟨?_, ?_, ?_⟩
  · intro status rbody hnet hok
    simp [makeRequest, hs, hnet, hok]
  · intro msg hnet
    simp [makeRequest, hs, hnet]
  · intro status msg h
    exact RequestError.noConfusion h

/-- Witness for C3: a concrete 500 response surfaces as the HTTP error
carrying status 500 and nothing else. -/
theorem makeRequest_error_surfacing_witness :
    makeRequest zeroSig testCfg 1000 "/p" "GET" ""
        (fun _ => FetchOutcome.success 500 "oops") =
      (Except.error (RequestError.httpError 500),
       [buildRequest testCfg ⟨"1", ""⟩ "/p" "GET" ""]) := by
  have h := makeRequest_error_surfacing zeroSig testCfg 1000 "/p" "GET" ""
    (fun _ => FetchOutcome.success 500 "oops") ⟨"1", ""⟩ rfl
  exact h.1 500 "oops" rfl (by decide)

/-- C5: the dispatcher attaches a body to the HTTP call if and only if the
caller supplied a non-empty body; every GET-dispatching operation builder
passes method GET with an empty body, so no GET request carries a body, and
every request makeRequest actually issues carries the body exactly when the
supplied body string is non-empty. -/
theorem body_attached_iff_nonempty (cfg : RobinhoodConfig) (sr : SignResult)
    (path method body : String) :
    ((buildRequest cfg sr path method body).body = none ↔ body = "") ∧
    (body ≠ "" → (buildRequest cfg sr path method body).body = some body) ∧
    (∀ sg nowMs net req, req ∈ (makeRequest sg cfg nowMs path method body net).2 →
        req.body = if body = "" then none else some body) ∧
    (∀ symbols, (getBestBidAskRequest symbols).2.1 = "GET" ∧
        (getBestBidAskRequest symbols).2.2 = "") ∧
    (∀ symbol side quantities,
        (getEstimatedPriceRequest symbol side quantities).2.1 = "GET" ∧
        (getEstimatedPriceRequest symbol side quantities).2.2 = "") ∧
    (∀ symbols limit cursor, (getTradingPairsRequest symbols limit cursor).2.1 = "GET" ∧
        (getTradingPairsRequest symbols limit cursor).2.2 = "") ∧
    (∀ orderId, (getOrderRequest orderId).2.1 = "GET" ∧
        (getOrderRequest orderId).2.2 = "") ∧
    (∀ filters limit cursor, (getOrdersRequest filters limit cursor).2.1 = "GET" ∧
        (getOrdersRequest filters limit cursor).2.2 = "") ∧
    (getAccountRequest.2.1 = "GET" ∧ getAccountRequest.2.2 = "") ∧
    (∀ assetCodes limit cursor, (getHoldingsRequest assetCodes limit cursor).2.1 = "GET" ∧
        (getHoldingsRequest assetCodes limit cursor).2.2 = "") := by
  refine ⟨?_, ?_, ?_, fun _ => ⟨rfl, rfl⟩, fun _ _ _ => ⟨rfl, rfl⟩,
    fun _ _ _ => ⟨rfl, rfl⟩, fun _ => ⟨rfl, rfl⟩, fun _ _ _ => ⟨rfl, rfl⟩,
    ⟨rfl, rfl⟩, fun _ _ _ => ⟨rfl, rfl⟩⟩
  · unfold buildRequest
    dsimp only
    constructor
    · intro h
      by_cases hb : body = ""
      · exact hb
      · simp [hb] at h
    · intro h
      simp [h]
  · intro h
    unfold buildRequest
    simp [h]
  · intro sg nowMs net req hreq
    rw [makeRequest_trace] at hreq
    cases hsig : signRequest sg cfg nowMs path method body with
    | error e => rw [hsig] at hreq; simp at hreq
    | ok sr' =>
      rw [hsig] at hreq
      simp only [List.mem_singleton] at hreq
      subst hreq
      unfold buildRequest
      by_cases hb : body = "" <;> simp [hb]

/-- Witness for C5: a concrete non-empty body is attached as given, and a
concrete empty body yields no attached body. -/
theorem body_attached_iff_nonempty_witness :
    (buildRequest testCfg ⟨"1", ""⟩ "/p" "POST" "payload").body = some "payload" ∧
    (buildRequest testCfg ⟨"1", ""⟩ "/p" "GET" "").body = none := by
  have h1 := body_attached_iff_nonempty testCfg ⟨"1", ""⟩ "/p" "POST" "payload"
  have h2 := body_attached_iff_nonempty testCfg ⟨"1", ""⟩ "/p" "GET" ""
  exact ⟨h1.2.1 (by decide), h2.1.mpr rfl⟩

/-- C6: for the filter object with symbol BTC-USD and side buy and neither
limit nor cursor, getOrders builds exactly the query string
symbol=BTC-USD&side=buy in insertion order, appended after a question mark
to the orders path, with no other parameters, and dispatches it as a GET
with no body. -/
theorem getOrders_filter_query :
    getOrdersRequest (some [("symbol", "BTC-USD"), ("side", "buy")]) none none =
      ("/api/v1/crypto/trading/orders/?symbol=BTC-USD&side=buy", "GET", "") := by
  decide

/-- C7: getBestBidAsk builds one symbol= parameter per list element, in list
order, joined by ampersands; for the two-element list it yields exactly
symbol=BTC-USD&symbol=ETH-USD, and every request it dispatches is a GET
without body against the market-data best-bid-ask path. -/
theorem getBestBidAsk_query :
    (∀ symbols, getBestBidAskRequest symbols =
        ("/api/v1/crypto/marketdata/best_bid_ask/?" ++
          String.intercalate "&" (symbols.map (fun s => "symbol=" ++ s)), "GET", "")) ∧
    getBestBidAskRequest ["BTC-USD", "ETH-USD"] =
      ("/api/v1/crypto/marketdata/best_bid_ask/?symbol=BTC-USD&symbol=ETH-USD",
       "GET", "") ∧
    (∀ sg cfg nowMs net req,
        req ∈ (getBestBidAsk sg cfg nowMs ["BTC-USD", "ETH-USD"] net).2 →
        req.url =
          "https://trading.robinhood.com/api/v1/crypto/marketdata/best_bid_ask/?symbol=BTC-USD&symbol=ETH-USD" ∧
        req.method = "GET" ∧ req.body = none) := by
  refine ⟨fun _ => rfl, by decide, ?_⟩
  intro sg cfg nowMs net req hreq
  unfold getBestBidAsk dispatch at hreq
  rw [makeRequest_trace] at hreq
  cases hsig : signRequest sg cfg nowMs (getBestBidAskRequest ["BTC-USD", "ETH-USD"]).1
      (getBestBidAskRequest ["BTC-USD", "ETH-USD"]).2.1
      (getBestBidAskRequest ["BTC-USD", "ETH-USD"]).2.2 with
  | error e =>
    rw [hsig] at hreq
    simp at hreq
  | ok sr =>
    rw [hsig] at hreq
    simp only [List.mem_singleton] at hreq
    subst hreq
    refine ⟨?_, rfl, ?_⟩
    · show baseUrl ++ (getBestBidAskRequest ["BTC-USD", "ETH-USD"]).1 = _
      decide
    · show (if (getBestBidAskRequest ["BTC-USD", "ETH-USD"]).2.2 = "" then none
          else some (getBestBidAskRequest ["BTC-USD", "ETH-USD"]).2.2) =
          (none : Option String)
      decide

/-- Witness for C7: the dispatched request at a concrete configuration and
network has the expected url. -/
theorem getBestBidAsk_query_witness :
    (buildRequest testCfg ⟨"1", ""⟩
        "/api/v1/crypto/marketdata/best_bid_ask/?symbol=BTC-USD&symbol=ETH-USD"
        "GET" "").url =
      "https://trading.robinhood.com/api/v1/crypto/marketdata/best_bid_ask/?symbol=BTC-USD&symbol=ETH-USD" := by
  have h := getBestBidAsk_query
  exact (h.2.2 zeroSig testCfg 1000 (fun _ => FetchOutcome.success 200 "")
    (buildRequest testCfg ⟨"1", ""⟩
      "/api/v1/crypto/marketdata/best_bid_ask/?symbol=BTC-USD&symbol=ETH-USD"
      "GET" "") (by decide)).1

/-- C9: falsy optional parameters are dropped, not only absent ones: a limit
of zero, an empty-string cursor, or a filter field whose value is the empty
string produce no query parameter, exactly as if the argument had been
omitted, for getOrders, getTradingPairs and getHoldings alike. -/
theorem falsy_params_dropped (filters : Option (List (String × String)))
    (limit : Option Nat) (cursor : Option String) (symbols : List String)
    (assetCodes : Option (List String)) (fs1 fs2 : List (String × String))
    (k : String) :
    getOrdersRequest filters (some 0) cursor = getOrdersRequest filters none cursor ∧
    getOrdersRequest filters limit (some "") = getOrdersRequest filters limit none ∧
    getOrdersRequest (some (fs1 ++ (k, "") :: fs2)) limit cursor =
      getOrdersRequest (some (fs1 ++ fs2)) limit cursor ∧
    getTradingPairsRequest symbols (some 0) cursor =
      getTradingPairsRequest symbols none cursor ∧
    getTradingPairsRequest symbols limit (some "") =
      getTradingPairsRequest symbols limit none ∧
    getHoldingsRequest assetCodes (some 0) cursor =
      getHoldingsRequest assetCodes none cursor ∧
    getHoldingsRequest assetCodes limit (some "") =
      getHoldingsRequest assetCodes limit none := by
  refine ⟨?_, ?_, ?_, ?_, ?_, ?_, ?_⟩ <;>
    simp [getOrdersRequest, getTradingPairsRequest, getHoldingsRequest,
      List.filterMap_append]

/-- C10: getBestBidAsk on the empty symbol list still carries a trailing
question mark with an empty query, while getOrders and getHoldings without
parameters produce their paths with no question mark at all. -/
theorem empty_query_shapes :
    getBestBidAskRequest [] = ("/api/v1/crypto/marketdata/best_bid_ask/?", "GET", "") ∧
    getOrdersRequest none none none = ("/api/v1/crypto/trading/orders/", "GET", "") ∧
    getHoldingsRequest none none none = ("/api/v1/crypto/trading/holdings/", "GET", "") := by
  decide

/-- A serialized JSON object is never the empty string: it is enclosed in
braces. -/
theorem stringify_obj_ne_empty (fs : List (String × Json)) :
    Json.stringify (Json.obj fs) ≠ "" := by
  intro h
  have hlen := congrArg String.length h
  simp only [Json.stringify] at hlen
  rw [String.length_append, String.length_append] at hlen
  have h1 : ("\x7b" : String).length = 1 := rfl
  have h2 : ("\x7d" : String).length = 1 := rfl
  have h0 : ("" : String).length = 0 := rfl
  omega

/-- Object spread followed by adding a key that is not present appends the
new field at the end and passes every existing field through unchanged. -/
theorem setField_append (fs : List (String × Json)) (k : String) (v : Json)
    (h : k ∉ fs.map Prod.fst) : setField fs k v = fs ++ [(k, v)] := by
  unfold setField
  rw [if_neg]
  intro hany
  rw [List.any_eq_true] at hany
  obtain ⟨kv, hmem, hk⟩ := hany
  rw [decide_eq_true_eq] at hk
  exact h (List.mem_map.mpr ⟨kv, hmem, hk⟩)

/-- C2: placeOrder dispatches a POST to the orders-creation path whose JSON
body serializes the caller's input object with exactly one added field, the
generated client_order_id, appended after all input fields, which pass
through unchanged. -/
theorem placeOrder_payload (order : List (String × Json)) (clientOrderId : String)
    (h : "client_order_id" ∉ order.map Prod.fst) :
    placeOrderRequest order clientOrderId =
      ("/api/v1/crypto/trading/orders/", "POST",
        Json.stringify (Json.obj (order ++ [("client_order_id", Json.str clientOrderId)]))) ∧
    (∀ sg cfg nowMs net req,
        req ∈ (placeOrder sg cfg nowMs order clientOrderId net).2 →
        req.url = "https://trading.robinhood.com/api/v1/crypto/trading/orders/" ∧
        req.method = "POST" ∧
        req.body = some (Json.stringify
          (Json.obj (order ++ [("client_order_id", Json.str clientOrderId)])))) := by
  have hset : setField order "client_order_id" (Json.str clientOrderId) =
      order ++ [("client_order_id", Json.str clientOrderId)] :=
    setField_append order _ _ h
  constructor
  · unfold placeOrderRequest
    rw [hset]
  · intro sg cfg nowMs net req hreq
    unfold placeOrder dispatch at hreq
    rw [makeRequest_trace] at hreq
    cases hsig : signRequest sg cfg nowMs (placeOrderRequest order clientOrderId).1
        (placeOrderRequest order clientOrderId).2.1
        (placeOrderRequest order clientOrderId).2.2 with
    | error e =>
      rw [hsig] at hreq
      simp at hreq
    | ok sr =>
      rw [hsig] at hreq
      simp only [List.mem_singleton] at hreq
      subst hreq
      have hne : (placeOrderRequest order clientOrderId).2.2 ≠ "" := by
        show Json.stringify
            (Json.obj (setField order "client_order_id" (Json.str clientOrderId))) ≠ ""
        exact stringify_obj_ne_empty _
      refine ⟨?_, rfl, ?_⟩
      · show baseUrl ++ "/api/v1/crypto/trading/orders/" = _
        decide
      · show (if (placeOrderRequest order clientOrderId).2.2 = "" then none
            else some ((placeOrderRequest order clientOrderId).2.2)) = _
        rw [if_neg hne]
        show some (Json.stringify
            (Json.obj (setField order "client_order_id" (Json.str clientOrderId)))) = _
        rw [hset]

/-- The order payload of the spec's order-placement example. -/
def specOrder : List (String × Json) :=
  [("symbol", Json.str "BTC-USD"), ("side", Json.str "buy"),
   ("type", Json.str "market"),
   ("market_order_config", Json.obj [("asset_quantity", Json.num "0.001")])]

/-- Witness for C2: the spec's example order is dispatched with exactly the
client_order_id field appended. -/
theorem placeOrder_payload_witness :
    placeOrderRequest specOrder "7f0d63f5-b963-4952-a4bc-d8ee77e78763" =
      ("/api/v1/crypto/trading/orders/", "POST",
        Json.stringify (Json.obj (specOrder ++
          [("client_order_id", Json.str "7f0d63f5-b963-4952-a4bc-d8ee77e78763")]))) :=
  (placeOrder_payload specOrder "7f0d63f5-b963-4952-a4bc-d8ee77e78763" (by decide)).1

/-- A string that is not valid base64 but whose 86 alphabet characters still
decode, under Node's lenient decoder, to exactly 64 bytes. -/
def badKeyB64 : String := String.mk (List.replicate 86 'A') ++ "!"

/-- Sanity anchor for the decoder model: padding terminates decoding, so
the digits after the '=' are discarded and the result is the three bytes of
"foo", matching Node's behaviour on Buffer.from("Zm9v=YmFy", "base64"). -/
theorem nodeBase64Decode_stops_at_padding :
    nodeBase64Decode "Zm9v=YmFy" = [102, 111, 111] := by
  decide

/-- Sanity anchor for the decoder model: digits after a '=' do not count
toward the key length, so 86 digits followed by "=BBBB" still decode to the
accepted 64-byte secret-key length. -/
theorem nodeBase64Decode_padding_truncates_key :
    (nodeBase64Decode (String.mk (List.replicate 86 'A') ++ "=BBBB")).length = 64 := by
  decide

/-- Counterexample to C8 as stated: a private key that is not valid base64
on which signing nevertheless succeeds, so the operation proceeds to issue
an HTTP request instead of failing before network activity. -/
theorem malformed_key_counterexample :
    isValidBase64 badKeyB64 = false ∧
    signRequest zeroSig ⟨badKeyB64, "", "api"⟩ 1000 "/p" "GET" "" =
      Except.ok ⟨"1", ""⟩ ∧
    (makeRequest zeroSig ⟨badKeyB64, "", "api"⟩ 1000 "/p" "GET" ""
        (fun _ => FetchOutcome.success 200 "ok")).2 =
      [buildRequest ⟨badKeyB64, "", "api"⟩ ⟨"1", ""⟩ "/p" "GET" ""] := by
  refine ⟨by decide, rfl, by decide⟩

/-- C8 amended: every operation fails with the signing error, before any
network activity, exactly when the lenient base64 decoding of the private
key (which stops at the first '=' padding character, skips other
non-alphabet characters, and never itself fails) yields a byte string whose
length is not the expected 64-byte secret-key length; when it does fail, no
HTTP request is issued. -/
theorem signing_error_iff_bad_key_length (sg : SignPrim) (cfg : RobinhoodConfig)
    (nowMs : Nat) (path method body : String) (net : HttpRequest → FetchOutcome) :
    ((nodeBase64Decode cfg.privateKeyBase64).length ≠ SECRETKEYBYTES →
      makeRequest sg cfg nowMs path method body net =
        (Except.error (RequestError.signingError "bad secret key size"), [])) ∧
    ((makeRequest sg cfg nowMs path method body net).2 = [] ↔
      (nodeBase64Decode cfg.privateKeyBase64).length ≠ SECRETKEYBYTES) := by
  constructor
  · intro h
    simp [makeRequest, signRequest, h]
  · rw [makeRequest_trace]
    by_cases h : (nodeBase64Decode cfg.privateKeyBase64).length ≠ SECRETKEYBYTES
    · simp [signRequest, h]
    · simp [signRequest, h]

/-- Witness for the amended C8: a concrete two-character key decodes to one
byte, so the call fails with the signing error and issues no request. -/
theorem signing_error_iff_bad_key_length_witness :
    makeRequest zeroSig ⟨"AA", "", "api"⟩ 1000 "/p" "GET" ""
        (fun _ => FetchOutcome.success 200 "ok") =
      (Except.error (RequestError.signingError "bad secret key size"), []) :=
  (signing_error_iff_bad_key_length zeroSig ⟨"AA", "", "api"⟩ 1000 "/p" "GET" ""
    (fun _ => FetchOutcome.success 200 "ok")).1 (by decide)

/-- Witness for C9: a zero limit together with an empty cursor yields the
same request as omitting both. -/
theorem falsy_params_dropped_witness :
    getOrdersRequest (some [("symbol", "BTC-USD")]) (some 0) (some "") =
      getOrdersRequest (some [("symbol", "BTC-USD")]) none none := by
  have h := falsy_params_dropped (some [("symbol", "BTC-USD")]) none (some "")
    [] none [] [] ""
  exact h.1.trans h.2.1
